import Mathlib

/-!
Verification of the RAG Converter Pro subscription / payment / conversion
service against its natural-language specification.

The Python sources are shallowly embedded: SQLAlchemy model methods become
pure Lean functions (mutation via `db.session.commit()` becomes explicit
state passing, and every persisted snapshot is made explicit where a claim
is about persistence), Flask route handlers become functions from a request
plus a database state to a response code plus a new database state, and
`datetime` values become natural-number timestamps (seconds).
-/

namespace RagConverter

/-! ## Data model (src/app/models.py) -/

/-- Embedding of the `Subscription` model (`src/app/models.py`).
`status` is one of the strings used by the code: `active`, `inactive`,
`cancelled`, `free_tier`.  `expires_at` is an optional timestamp in
seconds (`None` → `Option.none`). -/
structure Subscription where
  user_id : Int
  status : String
  liqpay_order_id : Option String
  expires_at : Option Nat
  deriving Repr, DecidableEq

/-- Embedding of the `UsageCounter` model (`src/app/models.py`). -/
structure UsageCounter where
  free_uses : Nat
  deriving Repr, DecidableEq

/-- Embedding of the `User` model (`src/app/models.py`): the one-to-one
relationships `subscription` and `usage` are `Option`-valued fields. -/
structure User where
  id : Int
  email : String
  subscription : Option Subscription
  usage : Option UsageCounter
  deriving Repr, DecidableEq

namespace Config

/-- Embedding of `Config.FREE_CONVERSIONS_LIMIT` (`src/app/config.py`, line 77). -/
def FREE_CONVERSIONS_LIMIT : Nat := 3

/-- Embedding of `Config.SUBSCRIPTION_PRICE` (`src/app/config.py`, line 78). -/
def SUBSCRIPTION_PRICE : Nat := 9

end Config

/-- The quota-exceeded message returned by `User.can_convert`
(`src/app/models.py`, line 43). -/
def quotaExceededMessage : String :=
  "Исчерпан лимит бесплатных конвертаций. Оформите подписку."

/-- Truthiness of `self.subscription and self.subscription.status in
['active', 'cancelled']` (`src/app/models.py`, line 32). -/
def User.hasPaidStatus (u : User) : Bool :=
  match u.subscription with
  | some s => s.status = "active" || s.status = "cancelled"
  | none => false

/-- Embedding of `User.can_convert` (`src/app/models.py`, lines 29-43).
Returns the pair `(allowed, reason)` exactly as the Python method does.
Note that the method reads `self.subscription.status` directly; it does
not call `Subscription.is_active`, so no expiry check is made here. -/
def User.can_convert (u : User) : Bool × Option String :=
  if u.hasPaidStatus then (true, none)
  else
    match u.usage with
    | none => (true, none)
    | some usage =>
        if usage.free_uses < Config.FREE_CONVERSIONS_LIMIT then (true, none)
        else (false, some quotaExceededMessage)

/-- Embedding of `Subscription.is_active` (`src/app/models.py`,
lines 61-72).  The method mutates `self.status` and commits when the
subscription has expired, so the embedding returns the boolean result
together with the committed subscription state.  `now` stands for
`datetime.utcnow()`. -/
def Subscription.is_active (sub : Subscription) (now : Nat) : Bool × Subscription :=
  if ¬ (sub.status = "active" ∨ sub.status = "cancelled") then (false, sub)
  else
    match sub.expires_at with
    | some e =>
        if e < now then (false, { sub with status := "inactive" })
        else (true, sub)
    | none => (true, sub)

/-- Embedding of `UsageCounter.increment` (`src/app/models.py`,
lines 86-89): `free_uses += 1` followed by `db.session.commit()`. -/
def UsageCounter.increment (c : UsageCounter) : UsageCounter :=
  { c with free_uses := c.free_uses + 1 }

/-! ## Python `int` parsing

`validate_order_id_format` (`src/app/payment/routes.py`) relies on the
built-in `int(s)` and `int(s, 16)`, so their acceptance behaviour is
embedded here: Python strips surrounding whitespace, accepts one optional
sign, then requires a nonempty run of digits; in base 16 an optional
`0x`/`0X` prefix may follow the sign. -/

/-- Whitespace stripped by Python's `str.strip` / `int()` (ASCII part). -/
def pyIsSpace (c : Char) : Bool :=
  c = ' ' || c = '\t' || c = '\n' || c = '\r' || c = '\x0b' || c = '\x0c'

/-- Strip the characters satisfying `p` from both ends of a list. -/
def stripBoth (p : Char → Bool) (l : List Char) : List Char :=
  ((l.dropWhile p).reverse.dropWhile p).reverse

/-- Value of a base-16 digit character, if any. -/
def hexDigitValue (c : Char) : Option Nat :=
  if '0' ≤ c ∧ c ≤ '9' then some (c.toNat - '0'.toNat)
  else if 'a' ≤ c ∧ c ≤ 'f' then some (c.toNat - 'a'.toNat + 10)
  else if 'A' ≤ c ∧ c ≤ 'F' then some (c.toNat - 'A'.toNat + 10)
  else none

/-- Value of a base-10 digit character, if any. -/
def decDigitValue (c : Char) : Option Nat :=
  if '0' ≤ c ∧ c ≤ '9' then some (c.toNat - '0'.toNat) else none

/-- Parse a nonempty run of digits (given by `digitValue`) as a `Nat`. -/
def parseDigits (digitValue : Char → Option Nat) (base : Nat) :
    List Char → Nat → Option Nat
  | [], acc => some acc
  | c :: cs, acc =>
      match digitValue c with
      | some d => parseDigits digitValue base cs (acc * base + d)
      | none => none

/-- Nonempty digit run in base 10. -/
def parseDec : List Char → Option Nat
  | [] => none
  | cs => parseDigits decDigitValue 10 cs 0

/-- Nonempty digit run in base 16 with Python's optional `0x`/`0X`
prefix (`int('0xff', 16)` succeeds, `int('0x', 16)` does not). -/
def parseHexBody : List Char → Option Nat
  | '0' :: x :: cs =>
      if x = 'x' || x = 'X' then
        match cs with
        | [] => none
        | cs => parseDigits hexDigitValue 16 cs 0
      else parseDigits hexDigitValue 16 (x :: cs) ((0 : Nat))
  | [] => none
  | cs => parseDigits hexDigitValue 16 cs 0

/-- Embedding of Python's `int(s)` on the characters of `s`: surrounding
whitespace, an optional sign, then a nonempty digit run; `none` when
`int` raises `ValueError`. -/
def pyInt10 (cs : List Char) : Option Int :=
  match stripBoth pyIsSpace cs with
  | '+' :: cs2 => (parseDec cs2).map Int.ofNat
  | '-' :: cs2 => (parseDec cs2).map fun n => -(Int.ofNat n)
  | cs2 => (parseDec cs2).map Int.ofNat

/-- Embedding of Python's `int(s, 16)`: like `pyInt10` but base 16 and
with the optional `0x`/`0X` prefix after the sign. -/
def pyInt16 (cs : List Char) : Option Int :=
  match stripBoth pyIsSpace cs with
  | '+' :: cs2 => (parseHexBody cs2).map Int.ofNat
  | '-' :: cs2 => (parseHexBody cs2).map fun n => -(Int.ofNat n)
  | cs2 => (parseHexBody cs2).map Int.ofNat

/-- Python's `str.split(sep)` for a one-character separator: splitting
on every occurrence, keeping empty parts (`'a__b'.split('_')` is
`['a', '', 'b']`). -/
def splitOnChar (sep : Char) : List Char → List (List Char)
  | [] => [[]]
  | c :: rest =>
      if c = sep then [] :: splitOnChar sep rest
      else
        match splitOnChar sep rest with
        | h :: t => (c :: h) :: t
        | [] => [[c]]

/-! ## Payment routes (src/app/payment/routes.py) -/

/-- Embedding of `validate_order_id_format` (`src/app/payment/routes.py`,
lines 14-36): split on `_`, expect exactly `sub`, an `int()`-parsable
user id, and an 8-character `int(·, 16)`-parsable hash. -/
def validate_order_id_format (order_id : String) : Option Int :=
  if order_id = "" then none
  else
    match splitOnChar '_' order_id.toList with
    | [p0, p1, p2] =>
        if p0 ≠ "sub".toList then none
        else
          match pyInt10 p1 with
          | none => none
          | some uid =>
              if p2.length ≠ 8 then none
              else
                match pyInt16 p2 with
                | none => none
                | some _ => some uid
    | _ => none

/-- The users table, as a map from user id to the row. -/
def Database := Int → Option User

/-- Committing a changed user row. -/
def Database.update (db : Database) (u : User) : Database :=
  fun i => if i = u.id then some u else db i

/-- The length of `timedelta(days=30)` in seconds. -/
def THIRTY_DAYS : Nat := 30 * 86400

/-- The fields of a decoded LiqPay callback payload that the handler
reads: `callback_data.get('order_id', '')` and
`callback_data.get('status')`. -/
structure CallbackData where
  order_id : String
  status : Option String
  deriving Repr, DecidableEq

/-- Embedding of the `callback` handler (`src/app/payment/routes.py`,
lines 86-174) from the point where `decode_callback` has succeeded:
order-id validation, user lookup, and the subscription transition.
Returns the HTTP status code and the committed database state;
`now` stands for `datetime.utcnow()`. -/
def callback_after_verification (db : Database) (cd : CallbackData) (now : Nat) :
    Nat × Database :=
  match validate_order_id_format cd.order_id with
  | none => (400, db)
  | some uid =>
      match db uid with
      | none => (404, db)
      | some user =>
          if cd.status = some "subscribed" || cd.status = some "success" then
            let sub : Subscription :=
              match user.subscription with
              | some s =>
                  { s with status := "active", liqpay_order_id := some cd.order_id,
                           expires_at := some (now + THIRTY_DAYS) }
              | none =>
                  { user_id := user.id, status := "active",
                    liqpay_order_id := some cd.order_id,
                    expires_at := some (now + THIRTY_DAYS) }
            (200, db.update { user with subscription := some sub })
          else if cd.status = some "failure" || cd.status = some "error" ||
                  cd.status = some "unsubscribed" then
            match user.subscription with
            | some s =>
                (200, db.update { user with subscription := some { s with status := "inactive" } })
            | none => (200, db)
          else (200, db)

/-- What the code reads from a LiqPay API reply: `response.get('status')`. -/
structure ProviderResponse where
  status : Option String
  deriving Repr, DecidableEq

/-- Embedding of `LiqPayClient.send_request`
(`src/app/payment/liqpay_client.py`, lines 121-154).  `networkOutcome`
models the outcome of the outbound `requests.post`: `some r` is the
provider's parsed reply and `none` is any network failure, which the
method swallows (`except Exception`) and turns into a reply with
`status = 'error'` instead of raising. -/
def send_request (networkOutcome : Option ProviderResponse) : ProviderResponse :=
  match networkOutcome with
  | some r => r
  | none => { status := some "error" }

/-- Embedding of `LiqPayClient.unsubscribe`
(`src/app/payment/liqpay_client.py`, lines 156-169). -/
def unsubscribe (networkOutcome : Option ProviderResponse) : ProviderResponse :=
  send_request networkOutcome

/-- Embedding of the `cancel` handler (`src/app/payment/routes.py`,
lines 177-213) acting on the current user's subscription.  The returned
`Bool` is `true` when the cancellation transition was committed and
`false` on the no-active-subscription early exit.  The provider reply
from `unsubscribe` is only logged, never branched on. -/
def cancel (sub : Option Subscription) (networkOutcome : Option ProviderResponse) :
    Option Subscription × Bool :=
  match sub with
  | none => (none, false)
  | some s =>
      if s.status ≠ "active" then (some s, false)
      else
        let _resp : Option ProviderResponse :=
          match s.liqpay_order_id with
          | some _ => some (unsubscribe networkOutcome)
          | none => none
        (some { s with status := "cancelled" }, true)

/-! ## The convert route (src/app/main/routes.py) -/

/-- A `ConversionHistory` row as written by the `convert` handler. -/
structure HistoryEntry where
  user_id : Int
  filename : String
  chunks_count : Nat
  deriving Repr, DecidableEq

/-- The slice of persistent state the `convert` handler touches: the
current user's row and the conversion-history table. -/
structure ConvertState where
  user : User
  history : List HistoryEntry
  deriving Repr, DecidableEq

/-- Response classes of `POST /convert`. -/
inductive ConvertOutcome where
  | denied : ConvertOutcome
  | validationError (message : String) : ConvertOutcome
  | converted (chunks : Nat) : ConvertOutcome
  deriving Repr, DecidableEq

/-- Embedding of `POST /convert` (`src/app/main/routes.py`,
lines 216-309) for a file that passes the upload checks.
`processResult` is the outcome of `process_files`: `Except.error msg`
when the pipeline raises a validation `ValueError`, `Except.ok chunks`
on success.  The middle component of the result lists every state
committed by `db.session.commit()` during the request, in order:
`UsageCounter.increment` commits on its own (`src/app/models.py`,
line 89) before the history row is committed (`src/app/main/routes.py`,
line 284), so on the free-tier path there are two snapshots and an
execution interrupted between them leaves the first one persisted. -/
def convert (st : ConvertState) (processResult : Except String Nat)
    (filename : String) : ConvertState × List ConvertState × ConvertOutcome :=
  if (st.user.can_convert).1 = false then (st, [], .denied)
  else
    match processResult with
    | .error msg => (st, [], .validationError msg)
    | .ok chunks =>
        let (st1, commits1) :=
          if ¬ st.user.hasPaidStatus then
            match st.user.usage with
            | some c =>
                let st' : ConvertState :=
                  { st with user := { st.user with usage := some c.increment } }
                (st', [st'])
            | none => (st, ([] : List ConvertState))
          else (st, ([] : List ConvertState))
        let entry : HistoryEntry :=
          { user_id := st.user.id, filename := filename, chunks_count := chunks }
        let st2 : ConvertState := { st1 with history := st1.history ++ [entry] }
        (st2, commits1 ++ [st2], .converted chunks)

/-! ## UTF-8 (Python's `str.encode('utf-8')` / `bytes.decode('utf-8')`)

Bytes are `Nat`s below 256. -/

/-- UTF-8 encoding of one character. -/
def utf8EncodeChar (c : Char) : List Nat :=
  let n := c.toNat
  if n < 128 then [n]
  else if n < 2048 then [192 + n / 64, 128 + n % 64]
  else if n < 65536 then [224 + n / 4096, 128 + n / 64 % 64, 128 + n % 64]
  else [240 + n / 262144, 128 + n / 4096 % 64, 128 + n / 64 % 64, 128 + n % 64]

/-- UTF-8 encoding of a string (`s.encode('utf-8')`). -/
def utf8Encode (s : String) : List Nat :=
  (s.toList.map utf8EncodeChar).flatten

/-- A UTF-8 continuation byte. -/
def utf8Cont (b : Nat) : Bool := 128 ≤ b && b ≤ 191

/-- Allowed range of the second byte of a three-byte sequence, which
depends on the lead byte (excludes overlong forms and surrogates, as
Python's strict `decode('utf-8')` does). -/
def utf8Cont2 (b1 b2 : Nat) : Bool :=
  if b1 = 224 then 160 ≤ b2 && b2 ≤ 191
  else if b1 = 237 then 128 ≤ b2 && b2 ≤ 159
  else utf8Cont b2

/-- Allowed range of the second byte of a four-byte sequence. -/
def utf8Cont3 (b1 b2 : Nat) : Bool :=
  if b1 = 240 then 144 ≤ b2 && b2 ≤ 191
  else if b1 = 244 then 128 ≤ b2 && b2 ≤ 143
  else utf8Cont b2

/-- Strict UTF-8 decoding (`bytes.decode('utf-8')`): `none` when Python
raises `UnicodeDecodeError`. -/
def utf8Decode : List Nat → Option (List Char)
  | [] => some []
  | b1 :: rest =>
      if b1 < 128 then (utf8Decode rest).map fun cs => Char.ofNat b1 :: cs
      else if 194 ≤ b1 && b1 ≤ 223 then
        match rest with
        | b2 :: rest2 =>
            if utf8Cont b2 then
              (utf8Decode rest2).map fun cs =>
                Char.ofNat ((b1 - 192) * 64 + (b2 - 128)) :: cs
            else none
        | [] => none
      else if 224 ≤ b1 && b1 ≤ 239 then
        match rest with
        | b2 :: b3 :: rest3 =>
            if utf8Cont2 b1 b2 && utf8Cont b3 then
              (utf8Decode rest3).map fun cs =>
                Char.ofNat ((b1 - 224) * 4096 + (b2 - 128) * 64 + (b3 - 128)) :: cs
            else none
        | _ => none
      else if 240 ≤ b1 && b1 ≤ 244 then
        match rest with
        | b2 :: b3 :: b4 :: rest4 =>
            if utf8Cont3 b1 b2 && utf8Cont b3 && utf8Cont b4 then
              (utf8Decode rest4).map fun cs =>
                Char.ofNat ((b1 - 240) * 262144 + (b2 - 128) * 4096 +
                            (b3 - 128) * 64 + (b4 - 128)) :: cs
            else none
        | _ => none
      else none

/-! ## SHA-1 (Python's `hashlib.sha1`) -/

/-- The constant 2 ^ 32. -/
def M32 : Nat := 4294967296

/-- Left rotation of a 32-bit word. -/
def rotl32 (n x : Nat) : Nat :=
  ((x <<< n) ||| (x >>> (32 - n))) % M32

/-- Big-endian 8-byte encoding of the 64-bit message length. -/
def be64 (n : Nat) : List Nat :=
  [(n >>> 56) % 256, (n >>> 48) % 256, (n >>> 40) % 256, (n >>> 32) % 256,
   (n >>> 24) % 256, (n >>> 16) % 256, (n >>> 8) % 256, n % 256]

/-- SHA-1 padding: `0x80`, zeros to 56 mod 64, then the bit length. -/
def sha1Pad (msg : List Nat) : List Nat :=
  let l := msg.length
  let z := (119 - l % 64) % 64
  msg ++ [128] ++ List.replicate z 0 ++ be64 (8 * l)

/-- Split a byte list into 64-byte blocks. -/
def chunksOf64 (l : List Nat) : List (List Nat) :=
  match l with
  | [] => []
  | x :: xs => ((x :: xs).take 64) :: chunksOf64 ((x :: xs).drop 64)
termination_by l.length
decreasing_by simp; omega

/-- Big-endian 32-bit words from bytes. -/
def bytesToWords : List Nat → List Nat
  | b0 :: b1 :: b2 :: b3 :: rest =>
      (b0 * 16777216 + b1 * 65536 + b2 * 256 + b3) :: bytesToWords rest
  | _ => []

/-- Message-schedule extension: append `fuel` more words, each the
1-rotation of the XOR of the words 3, 8, 14 and 16 back. -/
def sha1Extend (fuel : Nat) (w : List Nat) : List Nat :=
  match fuel with
  | 0 => w
  | f + 1 =>
      let n := w.length
      let x := rotl32 1 ((w.getD (n - 3) 0) ^^^ (w.getD (n - 8) 0) ^^^
                         (w.getD (n - 14) 0) ^^^ (w.getD (n - 16) 0))
      sha1Extend f (w ++ [x])

/-- SHA-1 round constants. -/
def sha1K (t : Nat) : Nat :=
  if t < 20 then 1518500249
  else if t < 40 then 1859775393
  else if t < 60 then 2400959708
  else 3395469782

/-- SHA-1 round functions (choose / parity / majority / parity). -/
def sha1F (t b c d : Nat) : Nat :=
  if t < 20 then (b &&& c) ||| ((b ^^^ 4294967295) &&& d)
  else if t < 40 then b ^^^ c ^^^ d
  else if t < 60 then (b &&& c) ||| (b &&& d) ||| (c &&& d)
  else b ^^^ c ^^^ d

/-- The five working registers. -/
structure Sha1State where
  a : Nat
  b : Nat
  c : Nat
  d : Nat
  e : Nat
  deriving Repr, DecidableEq

/-- One SHA-1 round. -/
def sha1Round (t w : Nat) (s : Sha1State) : Sha1State :=
  let temp := (rotl32 5 s.a + sha1F t s.b s.c s.d + s.e + sha1K t + w) % M32
  { a := temp, b := s.a, c := rotl32 30 s.b, d := s.c, e := s.d }

/-- Run the rounds for a whole 80-word schedule. -/
def sha1Rounds (t : Nat) : List Nat → Sha1State → Sha1State
  | [], s => s
  | w :: ws, s => sha1Rounds (t + 1) ws (sha1Round t w s)

/-- Compression of one 64-byte block into the chaining value. -/
def sha1Compress (h : Nat × Nat × Nat × Nat × Nat) (block : List Nat) :
    Nat × Nat × Nat × Nat × Nat :=
  let (h0, h1, h2, h3, h4) := h
  let w := sha1Extend 64 (bytesToWords block)
  let s := sha1Rounds 0 w ⟨h0, h1, h2, h3, h4⟩
  ((h0 + s.a) % M32, (h1 + s.b) % M32, (h2 + s.c) % M32,
   (h3 + s.d) % M32, (h4 + s.e) % M32)

/-- Big-endian bytes of a 32-bit word. -/
def word32ToBytes (x : Nat) : List Nat :=
  [(x >>> 24) % 256, (x >>> 16) % 256, (x >>> 8) % 256, x % 256]

/-- SHA-1 of a byte sequence (`hashlib.sha1(…).digest()`): 20 bytes. -/
def sha1 (msg : List Nat) : List Nat :=
  let init : Nat × Nat × Nat × Nat × Nat :=
    (1732584193, 4023233417, 2562383102, 271733878, 3285377520)
  let (h0, h1, h2, h3, h4) := (chunksOf64 (sha1Pad msg)).foldl sha1Compress init
  word32ToBytes h0 ++ word32ToBytes h1 ++ word32ToBytes h2 ++
  word32ToBytes h3 ++ word32ToBytes h4

/-! ## Base64 (Python's `base64.b64encode` / `base64.b64decode`) -/

/-- The standard base64 alphabet. -/
def b64Alphabet : List Char :=
  "ABCDEFGHIJKLMNOPQRSTUVWXYZabcdefghijklmnopqrstuvwxyz0123456789+/".toList

/-- Character for a 6-bit value. -/
def b64Char (n : Nat) : Char := b64Alphabet.getD n 'A'

/-- Base64 encoding of a byte list, with `=` padding. -/
def b64encodeChars : List Nat → List Char
  | b0 :: b1 :: b2 :: rest =>
      b64Char (b0 / 4) :: b64Char (b0 % 4 * 16 + b1 / 16) ::
      b64Char (b1 % 16 * 4 + b2 / 64) :: b64Char (b2 % 64) ::
      b64encodeChars rest
  | [b0, b1] =>
      [b64Char (b0 / 4), b64Char (b0 % 4 * 16 + b1 / 16), b64Char (b1 % 16 * 4), '=']
  | [b0] =>
      [b64Char (b0 / 4), b64Char (b0 % 4 * 16), '=', '=']
  | [] => []

/-- Encoding `base64.b64encode(bytes).decode('utf-8')` as a string. -/
def b64encode (bs : List Nat) : String := String.mk (b64encodeChars bs)

/-- Value of a base64 alphabet byte, as in `binascii`'s
`table_a2b_base64`. -/
def b64ByteValue (b : Nat) : Option Nat :=
  if 65 ≤ b ∧ b ≤ 90 then some (b - 65)
  else if 97 ≤ b ∧ b ≤ 122 then some (b - 97 + 26)
  else if 48 ≤ b ∧ b ≤ 57 then some (b - 48 + 52)
  else if b = 43 then some 62
  else if b = 47 then some 63
  else none

/-- The decoding loop of `binascii.a2b_base64` in its default non-strict
mode, byte for byte after CPython: `quadPos` is the position inside the
current four-character group, `leftchar` its leftover bits and `pads`
the run of `=` seen at quad position two or three; a `=` that completes
the group (`quadPos + pads ≥ 4`) finishes the decode and any later input
is ignored, a `=` at quad position zero or one is skipped, bytes outside
the alphabet are skipped, and a final incomplete group is an error
(`none`).  The output is accumulated in reverse. -/
def a2bBase64Aux : List Nat → Nat → Nat → Nat → List Nat → Option (List Nat)
  | [], quadPos, _, _, out =>
      if quadPos = 0 then some out.reverse else none
  | b :: rest, quadPos, leftchar, pads, out =>
      if b = 61 then
        if 2 ≤ quadPos then
          if 4 ≤ quadPos + (pads + 1) then some out.reverse
          else a2bBase64Aux rest quadPos leftchar (pads + 1) out
        else a2bBase64Aux rest quadPos leftchar pads out
      else
        match b64ByteValue b with
        | none => a2bBase64Aux rest quadPos leftchar pads out
        | some v =>
            match quadPos with
            | 0 => a2bBase64Aux rest 1 v 0 out
            | 1 => a2bBase64Aux rest 2 (v % 16) 0 ((leftchar * 4 + v / 16) :: out)
            | 2 => a2bBase64Aux rest 3 (v % 4) 0 ((leftchar * 16 + v / 4) :: out)
            | _ => a2bBase64Aux rest 0 0 0 ((leftchar * 64 + v) :: out)

/-- Embedding of `base64.b64decode` as called on a `str`
(`liqpay_client.py`, line 116): the string is first ASCII-encoded —
`ValueError`, hence `none`, on any character above U+007F — and the
bytes then go through `binascii.a2b_base64` in its default non-strict
mode. -/
def b64decode (s : String) : Option (List Nat) :=
  if s.toList.all (fun c => c.toNat ≤ 127) then
    a2bBase64Aux (s.toList.map Char.toNat) 0 0 0 []
  else none

/-! ## LiqPay client (src/app/payment/liqpay_client.py) -/

/-- Embedding of `LiqPayClient._generate_signature`
(`src/app/payment/liqpay_client.py`, lines 45-59):
`base64(sha1(private_key + data + private_key))`. -/
def generate_signature (private_key data : String) : String :=
  b64encode (sha1 (utf8Encode (private_key ++ data ++ private_key)))

/-- Embedding of `LiqPayClient.decode_callback`
(`src/app/payment/liqpay_client.py`, lines 98-119).  Python's
`json.loads` is an external library call and is modelled as an arbitrary
function `json_loads` into any result type, returning `none` when it
raises (the `except` branch also catches `b64decode` / `decode('utf-8')`
failures, modelled by the `Option` cases). -/
def decode_callback {J : Type} (json_loads : String → Option J)
    (private_key data signature : String) : Option J :=
  if signature ≠ generate_signature private_key data then none
  else
    match b64decode data with
    | none => none
    | some bytes =>
        match utf8Decode bytes with
        | none => none
        | some chars => json_loads (String.mk chars)

/-! ## Text cleaning (src/app/converter/processor.py)

`clean_text` is built from a handful of fixed regular expressions; each
one is embedded as the function it computes.  `\d` and `\s` are taken in
their ASCII reading (no input below contains non-ASCII digits or
whitespace). -/

/-- The character class `\d`. -/
def pyIsDigit (c : Char) : Bool := '0' ≤ c && c ≤ '9'

/-- Prefix test on character lists. -/
def startsWithList : List Char → List Char → Bool
  | [], _ => true
  | _ :: _, [] => false
  | p :: ps, c :: cs => p = c && startsWithList ps cs

/-- Embedding of `re.sub(r'^## Источник:.*$', '', text, flags=re.MULTILINE)`
(`src/app/converter/processor.py`, line 97): every line starting with
the source marker is replaced by an empty line. -/
def removeSourceLines (cs : List Char) : List Char :=
  List.intercalate ['\n'] ((splitOnChar '\n' cs).map fun line =>
    if startsWithList "## Источник:".toList line then [] else line)

/-- Worker for `removeDotRuns`; the flag records being inside a dot run
that is already known to have length at least two (and is deleted). -/
def removeDotRunsAux : Bool → List Char → List Char
  | _, [] => []
  | true, '.' :: rest => removeDotRunsAux true rest
  | true, c :: rest => c :: removeDotRunsAux false rest
  | false, '.' :: '.' :: rest => removeDotRunsAux true rest
  | false, ['.'] => ['.']
  | false, '.' :: c :: rest => '.' :: removeDotRunsAux false (c :: rest)
  | false, c :: rest => c :: removeDotRunsAux false rest

/-- Embedding of `re.sub(r'\.{2,}', '', text)` (line 100): every maximal run of two
or more dots is deleted; single dots stay. -/
def removeDotRuns (cs : List Char) : List Char := removeDotRunsAux false cs

/-- Worker for `replaceUniSeqs`.  `fuel` bounds the number of scanning
steps, each of which consumes at least one character, so the initial
`cs.length` is enough and the `fuel = 0` branch is never taken on a
nonempty list. -/
def replaceUniSeqsAux (fuel : Nat) (cs : List Char) : List Char :=
  match fuel, cs with
  | _, [] => []
  | f + 1, '/' :: 'u' :: 'n' :: 'i' :: h1 :: h2 :: h3 :: h4 :: rest =>
      (match hexDigitValue h1, hexDigitValue h2, hexDigitValue h3, hexDigitValue h4 with
       | some d1, some d2, some d3, some d4 =>
           Char.ofNat (d1 * 4096 + d2 * 256 + d3 * 16 + d4) :: replaceUniSeqsAux f rest
       | _, _, _, _ =>
           '/' :: replaceUniSeqsAux f ('u' :: 'n' :: 'i' :: h1 :: h2 :: h3 :: h4 :: rest))
  | f + 1, c :: rest => c :: replaceUniSeqsAux f rest
  | 0, c :: rest => c :: rest

/-- Embedding of `re.sub(r'/uni([0-9A-Fa-f]{4})', replace_uni, text)` (lines 103-108):
`/uniXXXX` becomes `chr(int(XXXX, 16))`. -/
def replaceUniSeqs (cs : List Char) : List Char := replaceUniSeqsAux cs.length cs

/-- Embedding of `re.sub(r'\s+\d+$', '', s)` (line 122): drop a trailing nonempty
digit run together with the nonempty whitespace run before it. -/
def removeTrailingPageNumber (cs : List Char) : List Char :=
  let r := cs.reverse
  let digits := r.takeWhile pyIsDigit
  let afterDigits := r.dropWhile pyIsDigit
  if 1 ≤ digits.length ∧ 1 ≤ (afterDigits.takeWhile pyIsSpace).length then
    (afterDigits.dropWhile pyIsSpace).reverse
  else cs

/-- Embedding of `re.match(r'^[\.#\s]+$', s)` (lines 128 and 136): a nonempty line of
dots, hashes and whitespace only. -/
def isJunkLine (cs : List Char) : Bool :=
  (!cs.isEmpty) && cs.all fun c => c = '.' || c = '#' || pyIsSpace c

/-- Matcher for the tail `(?:[\.\s]\d+)*\s+(.*)$` of the heading regex
(line 132), applied after the leading digit run: returns the second
capture group.  Following the engine's greedy order, another `[\.\s]\d+`
group is tried first, and on its failure the final `\s+(.*)` is tried at
the current position.  `fuel` bounds the number of groups; each group
consumes at least two characters, so the initial `cs.length` is enough
and the `fuel = 0` branch is never taken. -/
def headerTailAux (fuel : Nat) (cs : List Char) : Option (List Char) :=
  match fuel, cs with
  | _, [] => none
  | f + 1, sep :: rest =>
      let fallback : Option (List Char) :=
        if pyIsSpace sep then some (rest.dropWhile pyIsSpace) else none
      match rest with
      | c2 :: rest2 =>
          if (sep = '.' || pyIsSpace sep) && pyIsDigit c2 then
            match headerTailAux f (rest2.dropWhile pyIsDigit) with
            | some g => some g
            | none => fallback
          else fallback
      | [] => fallback
  | 0, sep :: rest =>
      if pyIsSpace sep then some (rest.dropWhile pyIsSpace) else none

/-- The tail matcher at its sufficient fuel. -/
def headerTail (cs : List Char) : Option (List Char) :=
  headerTailAux cs.length cs

/-- Embedding of `re.match(r'^(\d+(?:[\.\s]\d+)*)\s+(.*)$', s)` (line 132): the
second capture group, when the line matches. -/
def matchHeader (cs : List Char) : Option (List Char) :=
  if (cs.takeWhile pyIsDigit).isEmpty then none
  else headerTail (cs.dropWhile pyIsDigit)

/-- The per-line step of `clean_text` (lines 113-141): `none` means the
line is skipped (`continue`). -/
def processLine (line : List Char) : Option (List Char) :=
  let stripped := stripBoth pyIsSpace line
  if stripped.isEmpty then none
  else
    let stripped2 := stripBoth pyIsSpace (removeTrailingPageNumber stripped)
    if stripped2.isEmpty then none
    else if isJunkLine stripped2 then none
    else
      match matchHeader stripped2 with
      | some content =>
          if (stripBoth pyIsSpace content).isEmpty then none
          else if isJunkLine content then none
          else some ('#' :: ' ' :: content)
      | none => some stripped2

/-- Embedding of `clean_text` (`src/app/converter/processor.py`,
lines 77-143). -/
def clean_text (text : String) : String :=
  if text = "" then ""
  else
    let t1 := removeSourceLines text.toList
    let t2 := removeDotRuns t1
    let t3 := replaceUniSeqs t2
    String.mk (List.intercalate ['\n'] ((splitOnChar '\n' t3).filterMap processLine))

/-! ## Claims -/

/-- C1: for every user holding a `UsageCounter`, `can_convert` returns
allowed (with no reason) when the subscription status is `active` or
`cancelled` or when `free_uses < FREE_CONVERSIONS_LIMIT = 3`, and in
every other case returns denied together with the human-readable
quota-exceeded reason. -/
theorem can_convert_policy (u : User) (c : UsageCounter) (hu : u.usage = some c) :
    (u.can_convert = (true, none) ↔
      (∃ s, u.subscription = some s ∧ (s.status = "active" ∨ s.status = "cancelled")) ∨
        c.free_uses < Config.FREE_CONVERSIONS_LIMIT) ∧
    (u.can_convert = (true, none) ∨
      u.can_convert = (false, some quotaExceededMessage)) := by
  obtain ⟨id, email, sub, usage⟩ := u
  simp only at hu
  subst hu
  unfold User.can_convert User.hasPaidStatus
  cases sub with
  | none =>
      by_cases hn : c.free_uses < Config.FREE_CONVERSIONS_LIMIT <;>
        simp [hn]
  | some s =>
      by_cases hs : s.status = "active" ∨ s.status = "cancelled"
      · rcases hs with h | h <;> simp [h]
      · push_neg at hs
        by_cases hn : c.free_uses < Config.FREE_CONVERSIONS_LIMIT <;>
          simp [hs.1, hs.2, hn]

/-- Witness for C1: a fresh free-tier user with zero uses is allowed. -/
theorem can_convert_policy_witness :
    ((User.can_convert ⟨1, "user@example.com", none, some ⟨0⟩⟩ = (true, none) ↔
      (∃ s, (none : Option Subscription) = some s ∧
        (s.status = "active" ∨ s.status = "cancelled")) ∨
        (0 : Nat) < Config.FREE_CONVERSIONS_LIMIT) ∧
     (User.can_convert ⟨1, "user@example.com", none, some ⟨0⟩⟩ = (true, none) ∨
      User.can_convert ⟨1, "user@example.com", none, some ⟨0⟩⟩ =
        (false, some quotaExceededMessage))) :=
  can_convert_policy ⟨1, "user@example.com", none, some ⟨0⟩⟩ ⟨0⟩ rfl

/-- C10: a user with no `UsageCounter` row is allowed with no reason,
regardless of the subscription: the quota comparison is skipped. -/
theorem can_convert_no_counter (u : User) (hu : u.usage = none) :
    u.can_convert = (true, none) := by
  unfold User.can_convert
  rw [hu]
  split <;> rfl

/-- Witness for C10: a counter-less user with an `inactive` subscription
is still allowed. -/
theorem can_convert_no_counter_witness :
    User.can_convert ⟨2, "u@e.com", some ⟨2, "inactive", none, none⟩, none⟩ =
      (true, none) :=
  can_convert_no_counter ⟨2, "u@e.com", some ⟨2, "inactive", none, none⟩, none⟩ rfl

/-- C2 (divergence): `Subscription.is_active` does implement lazy expiry
(first two conjuncts), but `User.can_convert` never calls it — it reads
`subscription.status` directly — so a user whose `active` subscription
expired at time 100, checked at time 200, with the free quota exhausted,
is still granted access, contrary to the claim (and to the comment on
`can_convert` itself, which says "active or cancelled before the term
expires"). -/
theorem expired_subscription_still_grants_access :
    (Subscription.is_active ⟨1, "active", some "sub_1_00000000", some 100⟩ 200).1
      = false ∧
    (Subscription.is_active ⟨1, "active", some "sub_1_00000000", some 100⟩ 200).2.status
      = "inactive" ∧
    User.can_convert
      ⟨1, "u@e.com", some ⟨1, "active", some "sub_1_00000000", some 100⟩, some ⟨3⟩⟩
      = (true, none) := by
  refine ⟨?_, ?_, ?_⟩ <;> rfl

/-- C7: cancelling an `active` subscription commits `status = cancelled`
and leaves `expires_at`, the stored order id and the owner unchanged,
whatever the provider call returned — including `none`, the network
failure that `send_request` swallows. -/
theorem cancel_preserves_expiry (s : Subscription)
    (networkOutcome : Option ProviderResponse) (h : s.status = "active") :
    ∃ s2, cancel (some s) networkOutcome = (some s2, true) ∧
      s2.status = "cancelled" ∧ s2.expires_at = s.expires_at ∧
      s2.liqpay_order_id = s.liqpay_order_id ∧ s2.user_id = s.user_id := by
  refine ⟨{ s with status := "cancelled" }, ?_, rfl, rfl, rfl, rfl⟩
  simp [cancel, h]

/-- Witness for C7: an active subscription with a stored order id and an
expiry date, cancelled while the provider is unreachable. -/
theorem cancel_preserves_expiry_witness :
    ∃ s2, cancel (some ⟨5, "active", some "sub_5_0a1b2c3d", some 1000⟩) none
        = (some s2, true) ∧
      s2.status = "cancelled" ∧
      s2.expires_at = (⟨5, "active", some "sub_5_0a1b2c3d", some 1000⟩ : Subscription).expires_at ∧
      s2.liqpay_order_id =
        (⟨5, "active", some "sub_5_0a1b2c3d", some 1000⟩ : Subscription).liqpay_order_id ∧
      s2.user_id = (⟨5, "active", some "sub_5_0a1b2c3d", some 1000⟩ : Subscription).user_id :=
  cancel_preserves_expiry ⟨5, "active", some "sub_5_0a1b2c3d", some 1000⟩ none rfl

/-- Writing the same row twice is the same as writing it once. -/
theorem Database.update_update (db : Database) (u : User) :
    (db.update u).update u = db.update u := by
  funext i
  unfold Database.update
  by_cases h : i = u.id <;> simp [h]

/-- C4 counterexample: a verified activation event whose order id
resolves to user 7, sent to an empty users table, is answered with
HTTP 404, not 200 (the state is indeed left unchanged). -/
theorem unknown_user_gets_404_not_200 :
    callback_after_verification (fun _ => none) ⟨"sub_7_0a1b2c3d", some "success"⟩ 1000
      = (404, fun _ => none) ∧ (404 : Nat) ≠ 200 := by
  refine ⟨?_, by decide⟩
  unfold callback_after_verification
  simp only [show validate_order_id_format "sub_7_0a1b2c3d" = some 7 from by decide]

/-- C4 (amended): a verified event whose order reference resolves to a
user id with no matching `User` row is answered with HTTP 404 ("user not
found") and no state mutation. -/
theorem unknown_user_acknowledged_404 (db : Database) (cd : CallbackData)
    (now : Nat) (uid : Int)
    (hv : validate_order_id_format cd.order_id = some uid)
    (hu : db uid = none) :
    callback_after_verification db cd now = (404, db) := by
  unfold callback_after_verification
  simp only [hv, hu]

/-- Witness for C4: the empty users table and a well-formed order id. -/
theorem unknown_user_acknowledged_404_witness :
    callback_after_verification (fun _ => none) ⟨"sub_7_0a1b2c3d", some "success"⟩ 1000
      = (404, fun _ => none) :=
  unknown_user_acknowledged_404 (fun _ => none) ⟨"sub_7_0a1b2c3d", some "success"⟩
    1000 7 (by decide) rfl

/-- C5: applying the same verified activation event (status `subscribed`
or `success`) twice at the same evaluation time leaves the database —
and hence every Subscription field — exactly as after one application. -/
theorem activation_idempotent (db : Database) (cd : CallbackData) (now : Nat)
    (hs : cd.status = some "subscribed" ∨ cd.status = some "success") :
    (callback_after_verification
        (callback_after_verification db cd now).2 cd now).2
      = (callback_after_verification db cd now).2 := by
  have hcond : (cd.status = some "subscribed" || cd.status = some "success") = true := by
    rcases hs with h | h <;> simp [h]
  unfold callback_after_verification
  cases hv : validate_order_id_format cd.order_id with
  | none => simp
  | some uid =>
      cases hu : db uid with
      | none => simp [hu]
      | some user =>
          simp only [hu, hcond, Bool.true_eq, if_true]
          by_cases hid : uid = user.id
          · cases husr : user.subscription with
            | none =>
                simp [Database.update, hid, husr, Database.update_update]
            | some s =>
                simp [Database.update, hid, husr, Database.update_update]
          · cases husr : user.subscription with
            | none =>
                simp [Database.update, hid, husr, hu, Database.update_update]
            | some s =>
                simp [Database.update, hid, husr, hu, Database.update_update]

/-- Witness for C5: a duplicate `success` delivery for user 7. -/
theorem activation_idempotent_witness :
    (callback_after_verification
        (callback_after_verification
          (Database.update (fun _ => none) ⟨7, "u@e.com", none, none⟩)
          ⟨"sub_7_0a1b2c3d", some "success"⟩ 50).2
        ⟨"sub_7_0a1b2c3d", some "success"⟩ 50).2
      = (callback_after_verification
          (Database.update (fun _ => none) ⟨7, "u@e.com", none, none⟩)
          ⟨"sub_7_0a1b2c3d", some "success"⟩ 50).2 :=
  activation_idempotent (Database.update (fun _ => none) ⟨7, "u@e.com", none, none⟩)
    ⟨"sub_7_0a1b2c3d", some "success"⟩ 50 (Or.inr rfl)

/-- C6 counterexample: on the free-tier success path, the first
committed snapshot (`UsageCounter.increment` runs `db.session.commit()`
of its own) carries the incremented counter but no history row, so an
execution interrupted between the two commits persists the increment
without the history entry — the two writes are not one atomic unit. -/
theorem increment_committed_before_history :
    (convert ⟨⟨1, "u@e.com", none, some ⟨0⟩⟩, []⟩ (.ok 5) "report.txt").2.1.head?
      = some ⟨⟨1, "u@e.com", none, some ⟨1⟩⟩, []⟩ := by decide

/-- C6 (amended): for an allowed conversion, the free-tier increment and
the history append are committed in two separate units of work, the
increment first; on a pipeline validation failure nothing at all is
committed; paid-access users are never incremented. -/
theorem convert_commit_structure (u : User) (hist : List HistoryEntry)
    (filename : String) (chunks : Nat) (msg : String) (c : UsageCounter)
    (hallow : (u.can_convert).1 = true) :
    (convert ⟨u, hist⟩ (.error msg) filename = (⟨u, hist⟩, [], .validationError msg)) ∧
    (u.hasPaidStatus = false → u.usage = some c →
      convert ⟨u, hist⟩ (.ok chunks) filename =
        (⟨{ u with usage := some c.increment }, hist ++ [⟨u.id, filename, chunks⟩]⟩,
         [⟨{ u with usage := some c.increment }, hist⟩,
          ⟨{ u with usage := some c.increment }, hist ++ [⟨u.id, filename, chunks⟩]⟩],
         .converted chunks)) ∧
    (u.hasPaidStatus = true →
      convert ⟨u, hist⟩ (.ok chunks) filename =
        (⟨u, hist ++ [⟨u.id, filename, chunks⟩]⟩,
         [⟨u, hist ++ [⟨u.id, filename, chunks⟩]⟩], .converted chunks)) := by
  unfold convert
  refine ⟨?_, ?_, ?_⟩
  · simp [hallow]
  · intro hp hu
    simp [hallow, hp, hu]
  · intro hp
    simp [hallow, hp]

/-- Witness for C6: a free-tier user with zero uses converting a file of
five chunks, next to a failing pipeline run. -/
theorem convert_commit_structure_witness :
    (convert ⟨⟨1, "u@e.com", none, some ⟨0⟩⟩, []⟩ (.error "too big") "report.txt"
        = (⟨⟨1, "u@e.com", none, some ⟨0⟩⟩, []⟩, [], .validationError "too big")) ∧
    ((⟨1, "u@e.com", none, some ⟨0⟩⟩ : User).hasPaidStatus = false →
      (⟨1, "u@e.com", none, some ⟨0⟩⟩ : User).usage = some ⟨0⟩ →
      convert ⟨⟨1, "u@e.com", none, some ⟨0⟩⟩, []⟩ (.ok 5) "report.txt" =
        (⟨{ (⟨1, "u@e.com", none, some ⟨0⟩⟩ : User) with
              usage := some (UsageCounter.increment ⟨0⟩) },
            [] ++ [⟨1, "report.txt", 5⟩]⟩,
         [⟨{ (⟨1, "u@e.com", none, some ⟨0⟩⟩ : User) with
              usage := some (UsageCounter.increment ⟨0⟩) }, []⟩,
          ⟨{ (⟨1, "u@e.com", none, some ⟨0⟩⟩ : User) with
              usage := some (UsageCounter.increment ⟨0⟩) },
            [] ++ [⟨1, "report.txt", 5⟩]⟩],
         .converted 5)) ∧
    ((⟨1, "u@e.com", none, some ⟨0⟩⟩ : User).hasPaidStatus = true →
      convert ⟨⟨1, "u@e.com", none, some ⟨0⟩⟩, []⟩ (.ok 5) "report.txt" =
        (⟨⟨1, "u@e.com", none, some ⟨0⟩⟩, [] ++ [⟨1, "report.txt", 5⟩]⟩,
         [⟨⟨1, "u@e.com", none, some ⟨0⟩⟩, [] ++ [⟨1, "report.txt", 5⟩]⟩],
         .converted 5)) :=
  convert_commit_structure ⟨1, "u@e.com", none, some ⟨0⟩⟩ [] "report.txt" 5
    "too big" ⟨0⟩ (by decide)

/-- C8 counterexample: the normalized example has two newline
characters, i.e. three lines, not the two lines the claim states. -/
theorem clean_text_example_not_two_lines :
    ((clean_text "1.2 Заголовок\nSome body text.\n....\n 45").toList.filter
        (fun c => c = '\n')).length + 1 = 3 ∧ (3 : Nat) ≠ 2 :=
  ⟨by decide, by decide⟩

/-- C8 (amended): the example normalizes to the three lines
"# Заголовок", "Some body text." and "45": the ellipsis-only line is
removed and the numeral-prefixed first line is rewritten to a heading,
but the page-number line survives as "45", because the page-number rule
only strips digits preceded by whitespace remaining after the line
itself is stripped. -/
theorem clean_text_example :
    clean_text "1.2 Заголовок\nSome body text.\n....\n 45"
      = "# Заголовок\nSome body text.\n45" := by decide

/-- The order-id shape asserted by claim C9, stated from the claim's
words for comparison with `validate_order_id_format`: `sub_`, a decimal
integer, `_`, and exactly 8 hexadecimal characters. -/
def claimedOrderIdForm (s : String) : Bool :=
  match splitOnChar '_' s.toList with
  | [p0, p1, p2] =>
      p0 = "sub".toList && (!p1.isEmpty) && p1.all pyIsDigit &&
      p2.length = 8 && p2.all fun c => (hexDigitValue c).isSome
  | _ => false

/-- C9 counterexample: `sub_7_-0000001` is not of the claimed exact form
(its 8-character block contains `-`, which is no hex digit), yet
Python's `int('-0000001', 16)` parses it, so validation passes and a
verified `success` event with this order id for existing user 7 is
answered 200 — activating the subscription, a state mutation — instead
of the claimed 400 with no mutation. -/
theorem order_id_validation_superset :
    claimedOrderIdForm "sub_7_-0000001" = false ∧
    validate_order_id_format "sub_7_-0000001" = some 7 ∧
    (callback_after_verification
        (Database.update (fun _ => none) ⟨7, "u@e.com", none, none⟩)
        ⟨"sub_7_-0000001", some "success"⟩ 0).1 = 200 ∧
    (200 : Nat) ≠ 400 ∧
    (callback_after_verification
        (Database.update (fun _ => none) ⟨7, "u@e.com", none, none⟩)
        ⟨"sub_7_-0000001", some "success"⟩ 0).2 7
      ≠ Database.update (fun _ => none) ⟨7, "u@e.com", none, none⟩ 7 :=
  ⟨by decide, by decide, by decide, by decide, by decide⟩

/-- C9 (amended): the handler returns 400 exactly when
`validate_order_id_format` rejects the order id — a condition strictly
weaker than failing the claimed exact form, since Python's `int` also
accepts signs, surrounding whitespace and an `0x` prefix — and on
rejection it mutates nothing. -/
theorem invalid_order_id_rejected (db : Database) (cd : CallbackData) (now : Nat) :
    ((callback_after_verification db cd now).1 = 400 ↔
      validate_order_id_format cd.order_id = none) ∧
    (validate_order_id_format cd.order_id = none →
      callback_after_verification db cd now = (400, db)) := by
  unfold callback_after_verification
  cases hv : validate_order_id_format cd.order_id with
  | none => simp
  | some uid =>
      refine ⟨?_, fun h => absurd h (by simp)⟩
      simp only [show (some uid = (none : Option Int)) ↔ False by simp, iff_false]
      rcases hu : db uid with _ | user
      · simp [hu]
      · simp only [hu]
        split
        · simp
        · split
          · split <;> simp
          · simp

/-- Witness for C9: a malformed order id is answered 400 on the empty
table, and a well-formed one is not. -/
theorem invalid_order_id_rejected_witness :
    (((callback_after_verification (fun _ => none) ⟨"not-an-order", none⟩ 9).1 = 400 ↔
        validate_order_id_format "not-an-order" = none) ∧
      (validate_order_id_format "not-an-order" = none →
        callback_after_verification (fun _ => none) ⟨"not-an-order", none⟩ 9
          = (400, fun _ => none))) :=
  invalid_order_id_rejected (fun _ => none) ⟨"not-an-order", none⟩ 9

/-- C3: `decode_callback` returns a parsed payload exactly when the
signature equals `base64(SHA1(private_key + data + private_key))` and
the payload base64-decodes to UTF-8 that `json.loads` accepts; in every
other case it returns `None`.  (The function reads only its inputs and
the key; there is no state to mutate.) -/
theorem decode_callback_exactly_when {J : Type} (json_loads : String → Option J)
    (private_key data signature : String) (v : J) :
    decode_callback json_loads private_key data signature = some v ↔
      (signature = b64encode (sha1 (utf8Encode (private_key ++ data ++ private_key))) ∧
       ∃ bytes chars, b64decode data = some bytes ∧ utf8Decode bytes = some chars ∧
         json_loads (String.mk chars) = some v) := by
  unfold decode_callback generate_signature
  by_cases hs : signature = b64encode (sha1 (utf8Encode (private_key ++ data ++ private_key)))
  · simp only [hs, ne_eq, not_true_eq_false, if_false, true_and]
    cases hb : b64decode data with
    | none => simp
    | some bytes =>
        cases hc : utf8Decode bytes with
        | none => simp [hc]
        | some chars => simp [hc]
  · simp [hs]

end RagConverter
